import Mathlib

/-!
Verification of the SmartStatements document-processing pipeline.

Shallow embedding of the core pipeline code:
  * src/backend/models/gemini_client.py   (per-page extraction, OCR fallback,
    parallel PDF template extraction)
  * src/backend/models/grok_client.py     (semantic account mapping)
  * src/backend/utils/workflow_engine.py  (orchestrator, data healing,
    file analysis)
  * src/backend/config/settings.py        (configuration)

Python dictionaries are embedded as association lists over a JSON value type;
machine floats are embedded as exact rationals; exceptions are embedded as
Option / Except results; wall-clock readings are abstracted as parameters or
zero; external AI backends are abstracted as oracle inputs (their responses
are parameters of the embedded functions, since their internals are not part
of the repository).
-/

/-- JSON values, as produced by json.loads of a backend response. Numbers are
embedded as exact rationals. -/
inductive Json where
  | null : Json
  | bool (b : Bool) : Json
  | num (q : ℚ) : Json
  | str (s : String) : Json
  | arr (xs : List Json) : Json
  | obj (fields : List (String × Json)) : Json

/-- Python dict lookup (first match in the association list). -/
def assocGet : List (String × Json) → String → Option Json
  | [], _ => none
  | (k', v') :: rest, k => if k' = k then some v' else assocGet rest k

/-- Python dict assignment d[k] = v: overwrite in place if the key is present
(dict insertion order is preserved), otherwise append at the end. -/
def assocSet : List (String × Json) → String → Json → List (String × Json)
  | [], k, v => [(k, v)]
  | (k', v') :: rest, k, v =>
      if k' = k then (k', v) :: rest else (k', v') :: assocSet rest k v

theorem assocGet_assocSet_self (l : List (String × Json)) (k : String) (v : Json) :
    assocGet (assocSet l k v) k = some v := by
  induction l with
  | nil => simp [assocGet, assocSet]
  | cons hd tl ih =>
    by_cases h : hd.1 = k
    · simp [assocSet, assocGet, h]
    · simp [assocSet, assocGet, h, ih]

theorem assocGet_assocSet_ne (l : List (String × Json)) (k k' : String) (v : Json)
    (h : k' ≠ k) : assocGet (assocSet l k' v) k = assocGet l k := by
  induction l with
  | nil => simp [assocGet, assocSet, h]
  | cons hd tl ih =>
    by_cases hh : hd.1 = k'
    · simp [assocSet, assocGet, hh, h]
    · simp only [assocSet, hh, if_false, assocGet]
      by_cases hk : hd.1 = k <;> simp [hk, ih]

/-- Checks whether the character list pat occurs at the head of the second list. -/
def listLeadMatch : List Char → List Char → Bool
  | [], _ => true
  | _ :: _, [] => false
  | p :: ps, c :: cs => p = c && listLeadMatch ps cs

/-- Checks whether pat occurs as a contiguous sublist. -/
def listContainsSub (pat : List Char) : List Char → Bool
  | [] => pat.isEmpty
  | c :: cs => listLeadMatch pat (c :: cs) || listContainsSub pat cs

/-- Python substring containment: pat in s. -/
def strContains (s pat : String) : Bool :=
  listContainsSub pat.data s.data

/-- Splitting a character list on a separator character, keeping empty
segments (Python str.split with an explicit separator). -/
def splitOnChar (sep : Char) (cs : List Char) : List (List Char) :=
  cs.foldr
    (fun c acc =>
      if c = sep then [] :: acc
      else
        match acc with
        | [] => [[c]]
        | g :: gs => (c :: g) :: gs)
    [[]]

def strSplitOnChar (sep : Char) (s : String) : List String :=
  (splitOnChar sep s.data).map (fun l => ⟨l⟩)

/-- Python str.strip of surrounding whitespace. -/
def trimChars (cs : List Char) : List Char :=
  ((cs.dropWhile Char.isWhitespace).reverse.dropWhile Char.isWhitespace).reverse

def strTrim (s : String) : String :=
  ⟨trimChars s.data⟩

/-- Python str.lower (ASCII). -/
def strToLower (s : String) : String :=
  ⟨s.data.map Char.toLower⟩

/-- One OCR table dict, as built by _fallback_ocr_extraction when a run of
tabular lines is flushed (gemini_client.py lines 113-131). n is len(tables)
at flush time, ct the accumulated rows. -/
def mkOcrTable (n : Nat) (ct : List (List String)) : Json :=
  .obj [("table_id", .str ("ocr_table_" ++ toString n)),
        ("title", .str "Extracted Table"),
        ("headers", .arr ((ct.headD []).map Json.str)),
        ("rows", .arr ((ct.drop 1).map (fun r => .arr (r.map Json.str)))),
        ("position", .obj [("x", .num 0), ("y", .num 0)])]

/-- One step of the OCR line loop (gemini_client.py lines 104-121). State is
(tables built so far, current accumulated table rows). Blank lines are ignored;
a tab- or double-space-containing line contributes a row when it splits into
more than one nonempty tab-separated cell; a nonblank non-tabular line flushes
the current table if nonempty. -/
def ocrLineStep (acc : List Json × List (List String)) (line : String) :
    List Json × List (List String) :=
  let (tables, current) := acc
  if strTrim line ≠ "" then
    if strContains line "\t" || strContains line "  " then
      let row := ((strSplitOnChar '\t' line).map strTrim).filter (fun c => c ≠ "")
      if row.length > 1 then (tables, current ++ [row]) else (tables, current)
    else if current ≠ [] then (tables ++ [mkOcrTable tables.length current], [])
    else (tables, current)
  else (tables, current)

/-- Table extraction from OCR text (gemini_client.py lines 100-131): split the
text into lines, run the line loop, and flush a trailing table. -/
def ocrTables (text : String) : List Json :=
  let st := (strSplitOnChar '\n' text).foldl ocrLineStep ([], [])
  if st.2 ≠ [] then st.1 ++ [mkOcrTable st.1.length st.2] else st.1

/-- Result dict of _fallback_ocr_extraction (gemini_client.py lines 93-153).
The OCR oracle either yields the page text or fails with an error message. -/
def fallback_ocr_extraction (ocr : Except String String) (pageNum : Nat) : Json :=
  match ocr with
  | .ok text =>
      .obj [("page", .num pageNum),
            ("tables", .arr (ocrTables text)),
            ("headers", .arr []),
            ("footnotes", .arr []),
            ("format", .obj []),
            ("extraction_method", .str "ocr_fallback"),
            ("raw_text", .str text)]
  | .error e =>
      .obj [("page", .num pageNum),
            ("tables", .arr []),
            ("headers", .arr []),
            ("footnotes", .arr []),
            ("format", .obj []),
            ("extraction_method", .str "failed"),
            ("error", .str e)]

/-- Environment of one page-extraction attempt: the primary Gemini call and the
OCR fallback are external collaborators, abstracted as oracles. primary is
.error e when reading the image or calling the backend raises, .ok none when
the response text is not parseable JSON (json.JSONDecodeError), and
.ok (some j) when json.loads succeeds with value j. -/
structure PageEnv where
  primary : Except String (Option Json)
  ocr : Except String String

/-- Embedding of GeminiClient._extract_from_image (gemini_client.py lines
35-91). On a parsed JSON object the code sets result["page"] and
result["extraction_method"] and returns it, with no shape validation. A parse
failure falls back to OCR; a non-object parse (result["page"] = ... raises
TypeError on a non-dict) is caught by the outer handler and also falls back;
an exception before parsing falls back as well. -/
def extract_from_image (env : PageEnv) (pageNum : Nat) : Json :=
  match env.primary with
  | .error _ => fallback_ocr_extraction env.ocr pageNum
  | .ok none => fallback_ocr_extraction env.ocr pageNum
  | .ok (some j) =>
      match j with
      | .obj fields =>
          .obj (assocSet (assocSet fields "page" (.num pageNum))
                  "extraction_method" (.str "gemini_vision"))
      | _ => fallback_ocr_extraction env.ocr pageNum

/-- Reads the "page" field of a result dict. -/
def pageField : Json → Option Json
  | .obj fs => assocGet fs "page"
  | _ => none

/-- Sort key used at fan-in: x.get('page', 0) (gemini_client.py line 206). -/
def jsonPage (j : Json) : ℚ :=
  match pageField j with
  | some (.num q) => q
  | _ => 0

/-- Reads the "extraction_method" field of a result dict, defaulting to "". -/
def jsonMethod (j : Json) : String :=
  match j with
  | .obj fs =>
      match assocGet fs "extraction_method" with
      | some (.str s) => s
      | _ => ""
  | _ => ""

theorem fallback_page (ocr : Except String String) (n : Nat) :
    pageField (fallback_ocr_extraction ocr n) = some (.num n) := by
  cases ocr <;> rfl

theorem extract_from_image_page (env : PageEnv) (n : Nat) :
    pageField (extract_from_image env n) = some (.num n) := by
  unfold extract_from_image
  match env.primary with
  | .error e => exact fallback_page env.ocr n
  | .ok none => exact fallback_page env.ocr n
  | .ok (some j) =>
      cases j with
      | obj fields =>
          show assocGet (assocSet (assocSet fields "page" (.num n))
            "extraction_method" (.str "gemini_vision")) "page" = some (.num n)
          rw [assocGet_assocSet_ne _ _ _ _ (by decide),
            assocGet_assocSet_self]
      | null => exact fallback_page env.ocr n
      | bool b => exact fallback_page env.ocr n
      | num q => exact fallback_page env.ocr n
      | str s => exact fallback_page env.ocr n
      | arr xs => exact fallback_page env.ocr n

/-- C10: every per-page extraction attempt, on all of its outcome paths
(primary backend success, OCR fallback success, and total failure), returns a
result whose page field equals the page number it was submitted with. -/
theorem extract_from_image_page_field (env : PageEnv) (n : Nat) :
    pageField (extract_from_image env n) = some (Json.num n) :=
  extract_from_image_page env n

/-- Result dict appended when future.result() itself raises (gemini_client.py
lines 185-195); identical in shape to the total-failure fallback record. -/
def failed_page_record (pageNum : Nat) (e : String) : Json :=
  .obj [("page", .num pageNum),
        ("tables", .arr []),
        ("headers", .arr []),
        ("footnotes", .arr []),
        ("format", .obj []),
        ("extraction_method", .str "failed"),
        ("error", .str e)]

/-- Environment of one extract_pdf_template run: the number of rendered page
images, the per-page oracles, an optional per-task crash (the except branch of
the collection loop), and the non-deterministic order in which the worker
pool's futures complete (a permutation of the 1-based page numbers). -/
structure PdfEnv where
  numPages : Nat
  pages : Nat → PageEnv
  taskCrash : Nat → Option String
  completionOrder : List Nat

/-- Value of future.result() for one page, or the failed record built by the
except branch of the collection loop (gemini_client.py lines 180-195). -/
def collect_result (env : PdfEnv) (pageNum : Nat) : Json :=
  match env.taskCrash pageNum with
  | some e => failed_page_record pageNum e
  | none => extract_from_image (env.pages pageNum) pageNum

/-- Comparison used by results.sort(key=lambda x: x.get('page', 0)). -/
def page_le (a b : Json) : Prop := jsonPage a ≤ jsonPage b

instance : DecidableRel page_le := fun a b =>
  inferInstanceAs (Decidable (jsonPage a ≤ jsonPage b))

instance : IsTotal Json page_le := ⟨fun a b => le_total (jsonPage a) (jsonPage b)⟩

instance : IsTrans Json page_le := ⟨fun _ _ _ h h' => le_trans h h'⟩

/-- Return value of GeminiClient.extract_pdf_template (gemini_client.py lines
210-216). The processing_time_seconds wall-clock field is omitted. -/
structure PdfTemplateResult where
  source : String
  pages : List Json
  total_pages : Nat

/-- Embedding of GeminiClient.extract_pdf_template (gemini_client.py lines
155-216): collect one result per completed future in completion order, then
sort by the page key. Python's list.sort is stable; on the distinct page keys
produced here any sort agrees, and insertion sort is likewise stable. -/
def extract_pdf_template (path : String) (env : PdfEnv) : PdfTemplateResult :=
  let results := env.completionOrder.map (collect_result env)
  { source := path
    pages := List.insertionSort page_le results
    total_pages := env.numPages }

theorem collect_result_page (env : PdfEnv) (n : Nat) :
    jsonPage (collect_result env n) = (n : ℚ) := by
  unfold collect_result
  match env.taskCrash n with
  | some e => rfl
  | none => simp [jsonPage, extract_from_image_page]

/-- C1: for every document with N pages, extract_pdf_template returns exactly N
results in the pages list — one per submitted page, no duplicates, no gaps —
sorted by page index 1..N, for every completion order of the worker pool
(any permutation of the submitted page numbers) and even if every page fails. -/
theorem extract_pdf_template_pages_ordered (path : String) (env : PdfEnv)
    (hperm : env.completionOrder.Perm (List.range' 1 env.numPages)) :
    (extract_pdf_template path env).pages.map jsonPage
        = (List.range' 1 env.numPages).map (fun i : ℕ => (i : ℚ)) ∧
      (extract_pdf_template path env).pages.length = env.numPages ∧
      (extract_pdf_template path env).total_pages = env.numPages := by
  have hmapl : (env.completionOrder.map (collect_result env)).map jsonPage
      = env.completionOrder.map (fun i : ℕ => (i : ℚ)) := by
    rw [List.map_map]
    exact List.map_congr_left (fun a _ => collect_result_page env a)
  have hsp : List.insertionSort page_le (env.completionOrder.map (collect_result env))
      |>.Perm (env.completionOrder.map (collect_result env)) :=
    List.perm_insertionSort _ _
  have hpermmap :
      ((List.insertionSort page_le
          (env.completionOrder.map (collect_result env))).map jsonPage).Perm
        ((List.range' 1 env.numPages).map (fun i : ℕ => (i : ℚ))) := by
    refine ((hsp.map jsonPage).trans ?_)
    rw [hmapl]
    exact hperm.map _
  have hnodup_t : ((List.range' 1 env.numPages).map (fun i : ℕ => (i : ℚ))).Nodup := by
    refine List.Nodup.map ?_ (List.nodup_range' 1 env.numPages)
    exact fun a b hab => Nat.cast_injective hab
  have htlt : List.Sorted (· < ·)
      ((List.range' 1 env.numPages).map (fun i : ℕ => (i : ℚ))) := by
    refine List.Pairwise.map _ ?_ (List.pairwise_lt_range' 1 env.numPages)
    exact fun a b hab => Nat.cast_lt.mpr hab
  have hsle : List.Sorted (· ≤ ·)
      ((List.insertionSort page_le
        (env.completionOrder.map (collect_result env))).map jsonPage) := by
    refine List.Pairwise.map _ ?_ (List.sorted_insertionSort page_le _)
    intro a b hab
    exact hab
  have hnodup_s :
      ((List.insertionSort page_le
        (env.completionOrder.map (collect_result env))).map jsonPage).Nodup :=
    hpermmap.nodup_iff.mpr hnodup_t
  have hslt := hsle.lt_of_le hnodup_s
  haveI : IsAntisymm ℚ (· < ·) := ⟨fun _ _ h h' => absurd h' (lt_asymm h)⟩
  refine ⟨List.eq_of_perm_of_sorted hpermmap hslt htlt, ?_, rfl⟩
  show (List.insertionSort page_le (env.completionOrder.map (collect_result env))).length
      = env.numPages
  rw [hsp.length_eq, List.length_map, hperm.length_eq, List.length_range']

/-- Witness environment: a 3-page document where page 1 succeeds on the primary
backend, page 2 fails the primary parse and succeeds through OCR fallback, and
page 3 fails totally; the futures complete out of order as 2, 3, 1. -/
def pdfEnvWitness : PdfEnv :=
  { numPages := 3
    pages := fun n =>
      if n = 1 then
        { primary := .ok (some (.obj [("tables", .arr []), ("headers", .arr []),
            ("footnotes", .arr [])])), ocr := .ok "" }
      else if n = 2 then
        { primary := .ok none, ocr := .ok "a\tb" }
      else
        { primary := .error "backend error", ocr := .error "ocr error" }
    taskCrash := fun _ => none
    completionOrder := [2, 3, 1] }

theorem extract_pdf_template_pages_ordered_witness :
    ([2, 3, 1] : List Nat).Perm (List.range' 1 3) ∧
      (extract_pdf_template "t.pdf" pdfEnvWitness).pages.map jsonPage
        = (List.range' 1 3).map (fun i : ℕ => (i : ℚ)) :=
  ⟨by decide, (extract_pdf_template_pages_ordered "t.pdf" pdfEnvWitness (by decide)).1⟩

/-- Cell values of the tabular records: NaN / None, a number, or a string.
Floats are embedded as exact rationals. -/
inductive Value where
  | null : Value
  | num (q : ℚ) : Value
  | str (s : String) : Value
deriving DecidableEq

/-- DataFrame embedding: named columns and labelled rows. Each row is a pair
of its index label and its cells, positionally aligned with cols. A fresh
frame read from input has labels 0..n-1 (a RangeIndex); pandas setting with
enlargement can append rows with other labels. -/
structure Df where
  cols : List String
  rows : List (Int × List Value)
deriving DecidableEq

/-- Position of a column name in the frame (callers guard on membership). -/
def colIdx (df : Df) (c : String) : Nat :=
  df.cols.findIdx (fun x => x = c)

/-- Cell of a row at a column position (total, defaulting to NaN). -/
def cellAt (r : List Value) (i : Nat) : Value :=
  r.getD i Value.null

def Value.isStr : Value → Bool
  | .str _ => true
  | _ => false

/-- Reading healed_df.at[lab, c]: a KeyError (none) if the label is absent. -/
def atGet (df : Df) (lab : Int) (c : String) : Option Value :=
  (df.rows.find? (fun p => p.1 = lab)).map (fun p => cellAt p.2 (colIdx df c))

/-- Writing healed_df.at[lab, c] = v: updates the labelled row in place if the
label exists, otherwise pandas setting-with-enlargement appends a new row with
that label, NaN in every other column. -/
def atSet (df : Df) (lab : Int) (c : String) (v : Value) : Df :=
  if df.rows.any (fun p => p.1 = lab) then
    { df with rows := df.rows.map (fun p =>
        if p.1 = lab then (p.1, p.2.set (colIdx df c) v) else p) }
  else
    { df with rows :=
        df.rows ++ [(lab, (df.cols.map (fun _ => Value.null)).set (colIdx df c) v)] }

/-- Membership of a column in select_dtypes(include=['number']): a column is
numeric when no cell holds a string (numeric cells and NaN give float64). -/
def numericCol (df : Df) (c : String) : Bool :=
  df.rows.all (fun p => !(cellAt p.2 (colIdx df c)).isStr)

/-- Dtype test healed_df[col].dtype in ['object', 'string']: a column is
object-typed when some cell holds a string. -/
def objectDtype (df : Df) (c : String) : Bool :=
  df.rows.any (fun p => (cellAt p.2 (colIdx df c)).isStr)

/-- Numeric values of a column, NaN dropped (as Series.quantile does). -/
def colNumVals (df : Df) (c : String) : List ℚ :=
  df.rows.filterMap (fun p =>
    match cellAt p.2 (colIdx df c) with
    | .num q => some q
    | _ => none)

/-- Series.quantile(0.95) with the default linear interpolation: on the sorted
non-NaN values x_0 ≤ ... ≤ x_(n-1), with h = 0.95 * (n - 1), the value is
x_lo + (h - lo) * (x_(lo+1) - x_lo) where lo = floor h; NaN (none) when the
series is empty. -/
def quantile95 (vals : List ℚ) : Option ℚ :=
  let sorted := List.insertionSort (· ≤ ·) vals
  match sorted with
  | [] => none
  | _ :: _ =>
      let h : ℚ := (19 : ℚ) / 20 * ((sorted.length : ℚ) - 1)
      let lo : Nat := (Rat.floor h).toNat
      let frac : ℚ := h - (Rat.floor h : ℚ)
      let xlo := sorted.getD lo 0
      let xhi := sorted.getD (lo + 1) xlo
      some (xlo + frac * (xhi - xlo))

/-- Python min(cell, p95) under float NaN semantics: min(a, b) is b if b < a
else a, and every comparison with NaN is false, so a NaN cell stays NaN and a
NaN percentile leaves the cell unchanged. The string case cannot be reached
under the numeric-column guard. -/
def pyMin (v : Value) (p : Option ℚ) : Value :=
  match v, p with
  | .num c, some q => .num (if q < c then q else c)
  | v, _ => v

/-- Numeric coercion of one cell, pd.to_numeric(..., errors='coerce'): numbers
stay, NaN stays, strings parse as a signed decimal literal or become NaN. -/
def digitsVal (cs : List Char) : Option Nat :=
  if cs.all Char.isDigit then
    some (cs.foldl (fun a c => a * 10 + (c.toNat - 48)) 0)
  else none

def parseUnsigned (cs : List Char) : Option ℚ :=
  let ip := cs.takeWhile (fun c => c ≠ '.')
  match cs.dropWhile (fun c => c ≠ '.') with
  | [] =>
      match digitsVal ip with
      | some n => if ip ≠ [] then some ((n : ℚ)) else none
      | none => none
  | _ :: fp =>
      match digitsVal ip, digitsVal fp with
      | some n, some m =>
          if ip ≠ [] ∨ fp ≠ [] then
            some ((n : ℚ) + (m : ℚ) / ((10 : ℚ) ^ fp.length))
          else none
      | _, _ => none

def parseDecimal (s : String) : Option ℚ :=
  match trimChars s.data with
  | '-' :: rest => (parseUnsigned rest).map Neg.neg
  | '+' :: rest => parseUnsigned rest
  | t => parseUnsigned t

def toNumericVal : Value → Value
  | .num q => .num q
  | .null => .null
  | .str s =>
      match parseDecimal s with
      | some q => .num q
      | none => .null

/-- Whole-column coercion healed_df[col] = pd.to_numeric(healed_df[col],
errors='coerce'). -/
def coerceCol (df : Df) (c : String) : Df :=
  { df with rows := df.rows.map (fun p =>
      (p.1, p.2.set (colIdx df c) (toNumericVal (cellAt p.2 (colIdx df c))))) }

/-- One healing issue, as read from the Classification Backend response with
dict .get defaults (workflow_engine.py lines 252-255). itype embeds the
'type' key. -/
structure HealIssue where
  row : Option Int
  column : String
  itype : String
  suggested : Option Value
deriving DecidableEq

/-- Application of one issue inside the loop of _apply_data_healing
(workflow_engine.py lines 251-271): none models an exception propagating out
of the loop (a KeyError from the .at read in the outlier branch). The guard
skips issues with a missing row value or an unknown column name. -/
def applyIssue (df : Df) (iss : HealIssue) : Option Df :=
  match iss.row with
  | none => some df
  | some r =>
      if iss.column ∈ df.cols then
        if iss.itype = "missing" then
          match iss.suggested with
          | some v => some (atSet df r iss.column v)
          | none => some df
        else if iss.itype = "outlier" then
          if numericCol df iss.column then
            let p95 := quantile95 (colNumVals df iss.column)
            match atGet df r iss.column with
            | none => none
            | some (Value.str _) => none
            | some v => some (atSet df r iss.column (pyMin v p95))
          else some df
        else if iss.itype = "type_error" then
          if objectDtype df iss.column then some (coerceCol df iss.column)
          else some df
        else some df
      else some df

/-- The two frames alive inside _apply_data_healing: the caller's df and the
healed_df copy it mutates (workflow_engine.py line 249). -/
structure HealState where
  orig : Df
  healed : Df
deriving DecidableEq

/-- The issue loop of _apply_data_healing, tracking both frames: every write
targets the healed copy. -/
def applyDataHealingRun (df : Df) (issues : List HealIssue) : Option HealState :=
  issues.foldlM
    (fun st i => (applyIssue st.healed i).map (fun d => { orig := st.orig, healed := d }))
    { orig := df, healed := df }

/-- Embedding of WorkflowEngine._apply_data_healing (workflow_engine.py lines
247-273): copy the frame, apply each issue to the copy, return the copy. -/
def apply_data_healing (df : Df) (issues : List HealIssue) : Option Df :=
  (applyDataHealingRun df issues).map (fun st => st.healed)

theorem foldlM_orig (issues : List HealIssue) (st0 : HealState) (st : HealState)
    (h : issues.foldlM
      (fun st i => (applyIssue st.healed i).map (fun d => { orig := st.orig, healed := d }))
      st0 = some st) : st.orig = st0.orig := by
  induction issues generalizing st0 with
  | nil =>
      simp only [List.foldlM, pure, Option.some.injEq] at h
      rw [← h]
  | cons i rest ih =>
      simp only [List.foldlM] at h
      cases happ : applyIssue st0.healed i with
      | none => rw [happ] at h; simp at h
      | some d =>
          rw [happ] at h
          exact ih { orig := st0.orig, healed := d } h

attribute [local semireducible] Rat.mul Rat.add Rat.sub Rat.inv Rat.ofScientific

/-- C9: for every record set and issue list, healing leaves the original
record sequence unchanged and returns the healed copy: every write inside
_apply_data_healing targets the healed_df copy made on entry, never the
caller's frame. -/
theorem apply_data_healing_preserves_original (df : Df) (issues : List HealIssue)
    (st : HealState) (h : applyDataHealingRun df issues = some st) :
    st.orig = df ∧ apply_data_healing df issues = some st.healed := by
  refine ⟨foldlM_orig issues _ st h, ?_⟩
  unfold apply_data_healing
  rw [h]
  rfl

/-- Record set and issue of the spec's Scenario B: a missing amt healed with a
suggested value of 50. -/
def dfMissing : Df :=
  { cols := ["amt"], rows := [(0, [Value.null]), (1, [Value.num 100])] }

def missingIssues : List HealIssue :=
  [{ row := some 0, column := "amt", itype := "missing", suggested := some (Value.num 50) }]

def dfMissingHealed : Df :=
  { cols := ["amt"], rows := [(0, [Value.num 50]), (1, [Value.num 100])] }

theorem apply_data_healing_preserves_original_witness :
    HealState.orig { orig := dfMissing, healed := dfMissingHealed } = dfMissing ∧
      apply_data_healing dfMissing missingIssues = some dfMissingHealed :=
  let h := apply_data_healing_preserves_original dfMissing missingIssues
    { orig := dfMissing, healed := dfMissingHealed } (by decide)
  ⟨h.1, h.2⟩

/-- Record set for the outlier counterexample: amounts 10 and 100, with one
outlier issue against row 1. -/
def dfOutlier : Df :=
  { cols := ["amt"], rows := [(0, [Value.num 10]), (1, [Value.num 100])] }

def outlierIssues : List HealIssue :=
  [{ row := some 1, column := "amt", itype := "outlier", suggested := none }]

/-- C3 counterexample: healing is not idempotent under re-application of the
same issue list. The outlier rule recomputes the 95th percentile from the
current records, so capping 100 to 95.5 lowers the percentile of the healed
set and a second pass caps again to 91.225. -/
theorem apply_data_healing_not_idempotent_cex :
    apply_data_healing dfOutlier outlierIssues
        = some { cols := ["amt"], rows := [(0, [Value.num 10]), (1, [Value.num (191/2)])] } ∧
      (apply_data_healing dfOutlier outlierIssues).bind
          (fun d => apply_data_healing d outlierIssues)
        = some { cols := ["amt"], rows := [(0, [Value.num 10]), (1, [Value.num (3649/40)])] } ∧
      (apply_data_healing dfOutlier outlierIssues).bind
          (fun d => apply_data_healing d outlierIssues)
        ≠ apply_data_healing dfOutlier outlierIssues := by
  refine ⟨by decide, by decide, by decide⟩

/-- C3 (amended): healing with an empty issue list is the identity, so the
spec's contract equation heal(heal(records, issues), []) == heal(records,
issues) holds; but re-applying the same non-empty issue list can change the
records further, because the outlier rule recomputes the 95th percentile from
the already-capped record set. -/
theorem apply_data_healing_empty_idempotent (df : Df) (issues : List HealIssue) :
    (apply_data_healing df issues).bind (fun d => apply_data_healing d []) =
      apply_data_healing df issues := by
  cases h : apply_data_healing df issues with
  | none => rfl
  | some d => rfl

/-- Single-row record set used for the out-of-range-row counterexample. -/
def dfSingle : Df :=
  { cols := ["amt"], rows := [(0, [Value.num 100])] }

/-- C6 counterexample: an issue whose row index is out of range is not skipped.
A missing issue with a suggested value at row 5 of a one-row frame enlarges the
frame (pandas .at setting with enlargement appends a new labelled row), and an
outlier issue at row 5 raises a KeyError from the .at read, aborting healing. -/
theorem healing_out_of_range_row_cex :
    apply_data_healing dfSingle
        [{ row := some 5, column := "amt", itype := "missing",
           suggested := some (Value.num 50) }] ≠ some dfSingle ∧
      apply_data_healing dfSingle
        [{ row := some 5, column := "amt", itype := "missing",
           suggested := some (Value.num 50) }]
        = some { cols := ["amt"], rows := [(0, [Value.num 100]), (5, [Value.num 50])] } ∧
      apply_data_healing dfSingle
        [{ row := some 5, column := "amt", itype := "outlier", suggested := none }]
        = none := by
  refine ⟨by decide, by decide, by decide⟩

/-- C6 (amended): an issue whose field name is not a column of the record set
is skipped without error and without changing the records; issues with an
out-of-range row index are not skipped (a missing issue enlarges the frame and
an outlier issue raises). -/
theorem healing_unknown_column_skipped (df : Df) (iss : HealIssue)
    (h : iss.column ∉ df.cols) : apply_data_healing df [iss] = some df := by
  have happ : applyIssue df iss = some df := by
    unfold applyIssue
    cases iss.row with
    | none => rfl
    | some r => simp [h]
  unfold apply_data_healing applyDataHealingRun
  simp [List.foldlM, happ]

theorem healing_unknown_column_skipped_witness :
    "ghost" ∉ dfSingle.cols ∧
      apply_data_healing dfSingle
        [{ row := some 0, column := "ghost", itype := "missing",
           suggested := some (Value.num 1) }] = some dfSingle :=
  ⟨by decide, healing_unknown_column_skipped dfSingle
    { row := some 0, column := "ghost", itype := "missing",
      suggested := some (Value.num 1) } (by decide)⟩

/-- Embedding of config.settings.Config (settings.py lines 9-60). API keys
default to "" when the corresponding environment variable is unset; the other
fields carry their literal defaults. -/
structure Config where
  gemini_api_key : String := ""
  openrouter_api_key : String := ""
  supabase_url : String := ""
  supabase_anon_key : String := ""
  supabase_service_key : String := ""
  sqlite_db_path : String := "fs_audit.db"
  cache_ttl_hours : Nat := 1
  max_workers : Nat := 4
  pdf_dpi : Nat := 300
  gemini_pro_model : String := "gemini-2.5-pro"
  gemini_flash_model : String := "gemini-2.5-flash"
  grok_model : String := "x-ai/grok-4-fast"
  auto_map_threshold : ℚ := 17/20
  review_threshold : ℚ := 7/10
  metrics_port : Nat := 8000
  input_directory : String := "./input"
  output_directory : String := "./output"
  max_file_size_mb : Nat := 50
  max_pages_per_pdf : Nat := 100
  max_retries : Nat := 3
  retry_delay_seconds : Nat := 2
  validate_on_init : Bool := true
deriving DecidableEq

/-- Configuration with every default (settings.py line 98, config = Config()). -/
def default_config : Config := {}

/-- Embedding of Config.__post_init__ (settings.py lines 62-81): when
validation is enabled it only collects the names of missing API-key
environment variables and prints a warning; no exception is ever raised and
the threshold fields are never examined. -/
def post_init_warnings (c : Config) : List String :=
  if c.validate_on_init = false then []
  else
    (if c.gemini_api_key = "" then ["GEMINI_API_KEY"] else []) ++
    (if c.openrouter_api_key = "" then ["OPENROUTER_API_KEY"] else []) ++
    (if c.supabase_url = "" then ["SUPABASE_URL"] else []) ++
    (if c.supabase_anon_key = "" then ["SUPABASE_ANON_KEY"] else []) ++
    (if c.supabase_service_key = "" then ["SUPABASE_SERVICE_KEY"] else [])

/-- Embedding of Config.validate (settings.py lines 83-94): returns the error
message of the first missing API key, none when accepted; the threshold fields
are never examined. -/
def config_validate (c : Config) : Option String :=
  if c.gemini_api_key = "" then
    some "GEMINI_API_KEY environment variable is required"
  else if c.openrouter_api_key = "" then
    some "OPENROUTER_API_KEY environment variable is required"
  else if c.supabase_url = "" then
    some "SUPABASE_URL environment variable is required"
  else if c.supabase_anon_key = "" then
    some "SUPABASE_ANON_KEY environment variable is required"
  else if c.supabase_service_key = "" then
    some "SUPABASE_SERVICE_KEY environment variable is required"
  else none

/-- Configuration with all keys present but inverted thresholds
(review_threshold 0.9 above auto_map_threshold 0.85). -/
def badThresholdConfig : Config :=
  { gemini_api_key := "k1", openrouter_api_key := "k2", supabase_url := "u",
    supabase_anon_key := "k3", supabase_service_key := "k4",
    auto_map_threshold := 17/20, review_threshold := 9/10 }

/-- C7 counterexample: a configuration violating
0 <= review_threshold < auto_map_threshold <= 1 is accepted at load with no
warning and no error, rather than causing a fatal startup error. -/
theorem config_thresholds_unchecked_cex :
    badThresholdConfig.auto_map_threshold ≤ badThresholdConfig.review_threshold ∧
      post_init_warnings badThresholdConfig = [] ∧
      config_validate badThresholdConfig = none := by
  refine ⟨by decide, rfl, rfl⟩

/-- C7 (amended): no threshold check happens at configuration load;
__post_init__ and validate depend only on the API-key fields, so any threshold
combination is accepted silently. The default configuration happens to satisfy
0 <= review_threshold < auto_map_threshold <= 1. -/
theorem config_validation_ignores_thresholds (c : Config) (r a : ℚ) :
    post_init_warnings { c with review_threshold := r, auto_map_threshold := a }
        = post_init_warnings c ∧
      config_validate { c with review_threshold := r, auto_map_threshold := a }
        = config_validate c ∧
      (0 ≤ default_config.review_threshold ∧
        default_config.review_threshold < default_config.auto_map_threshold ∧
        default_config.auto_map_threshold ≤ 1) := by
  refine ⟨rfl, rfl, by decide, by decide, by decide⟩

/-- Last component of a path, os.path.basename for forward-slash paths. -/
def baseName (p : String) : String :=
  (strSplitOnChar '/' p).getLastD p

/-- Embedding of Path(file_path).suffix: the final extension of the basename
including its dot, empty when the basename has no dot or only a leading one. -/
def pathSuffix (p : String) : String :=
  match strSplitOnChar '.' (baseName p) with
  | [] => ""
  | [_] => ""
  | "" :: [_] => ""
  | parts => "." ++ parts.getLastD ""

/-- Python round-half-to-even of an exact rational to an integer. -/
def roundHalfEven (x : ℚ) : ℤ :=
  let f := Rat.floor x
  let frac := x - (f : ℚ)
  if frac < 1/2 then f
  else if 1/2 < frac then f + 1
  else if f % 2 = 0 then f else f + 1

/-- Python round(x, 2). -/
def round2 (x : ℚ) : ℚ := (roundHalfEven (x * 100) : ℚ) / 100

/-- Return value of WorkflowEngine._analyze_file (workflow_engine.py lines
128-142). -/
structure FileInfo where
  ftype : String
  size_mb : ℚ
  is_template : Bool
  year : Nat
deriving DecidableEq

/-- Embedding of WorkflowEngine._analyze_file (workflow_engine.py lines
128-142): the template route is chosen by a filename heuristic — the
lowercased basename containing "2024" or "template" — not by any
caller-supplied flag. -/
def analyze_file (file_path : String) (sizeBytes : ℚ) : FileInfo :=
  let filename := strToLower (baseName file_path)
  let templ := strContains filename "2024" || strContains filename "template"
  { ftype := strToLower (pathSuffix file_path)
    size_mb := round2 (sizeBytes / (1024 * 1024))
    is_template := templ
    year := if templ then 2024 else 2025 }

/-- Outcomes of the fallible collaborator calls inside one process_file run:
each flag tells whether the corresponding call returns without raising.
Failures after the sixth step record (certificate generation, database
completion, alert delivery, metrics) are collapsed into tailOk since none of
them appends a step record. -/
structure StageOutcomes where
  createReportOk : Bool
  analyzeOk : Bool
  templateOk : Bool
  extractHealOk : Bool
  mappingOk : Bool
  generateOk : Bool
  qaOk : Bool
  tailOk : Bool
deriving DecidableEq

inductive RunStatus where
  | success : RunStatus
  | error : RunStatus
deriving DecidableEq

/-- Embedding of WorkflowEngine.process_file (workflow_engine.py lines
40-126), restricted to the run status and the ordinals appended to
processing_steps. The hard-coded step numbers are 1 File Analysis, 2 Template
Extraction (only on the template branch; _load_template_data appends
nothing), 3 Data Extraction & Healing, 4 Semantic Account Mapping, 5
Statement Generation, 6 Quality Assurance Audit; the remaining stages append
no step records. Any exception yields the error return carrying the steps
accumulated so far. -/
def process_file (file_path : String) (sizeBytes : ℚ) (env : StageOutcomes) :
    RunStatus × List Nat :=
  if env.createReportOk = false then (.error, [])
  else if env.analyzeOk = false then (.error, [])
  else
    let info := analyze_file file_path sizeBytes
    let steps1 := [1]
    if info.is_template = true ∧ env.templateOk = false then (.error, steps1)
    else
      let steps2 := if info.is_template then steps1 ++ [2] else steps1
      if env.extractHealOk = false then (.error, steps2)
      else
        let steps3 := steps2 ++ [3]
        if env.mappingOk = false then (.error, steps3)
        else
          let steps4 := steps3 ++ [4]
          if env.generateOk = false then (.error, steps4)
          else
            let steps5 := steps4 ++ [5]
            if env.qaOk = false then (.error, steps5)
            else
              let steps6 := steps5 ++ [6]
              if env.tailOk = false then (.error, steps6)
              else (.success, steps6)

/-- Environment in which every collaborator call succeeds. -/
def allOkStages : StageOutcomes :=
  { createReportOk := true, analyzeOk := true, templateOk := true,
    extractHealOk := true, mappingOk := true, generateOk := true,
    qaOk := true, tailOk := true }

/-- C2 counterexample: a successfully completed run over a non-template input
skips the hard-coded step ordinal 2, so its ledger [1, 3, 4, 5, 6] is not a
gapless sequence starting at 1. -/
theorem process_file_step_gap_cex :
    process_file "statements_2025.xlsx" 1048576 allOkStages
        = (RunStatus.success, [1, 3, 4, 5, 6]) ∧
      ¬ ((process_file "statements_2025.xlsx" 1048576 allOkStages).2
          = List.range' 1 (process_file "statements_2025.xlsx" 1048576 allOkStages).2.length) := by
  refine ⟨by decide, by decide⟩

/-- C2 (amended): in every run the ledger ordinals are strictly increasing
and start at 1 when any step was recorded; on the template branch they form
the gapless sequence 1..k, while the non-template branch skips ordinal 2 and
the stages after Quality Assurance append no records at all. -/
theorem process_file_steps_strictly_increasing (p : String) (sz : ℚ)
    (env : StageOutcomes) :
    List.Chain' (· < ·) (process_file p sz env).2 ∧
      ((process_file p sz env).2 ≠ [] →
        (process_file p sz env).2.head? = some 1) ∧
      ((analyze_file p sz).is_template = true →
        (process_file p sz env).2
          = List.range' 1 (process_file p sz env).2.length) := by
  obtain ⟨cr, an, tp, eh, mp, ge, qa, tl⟩ := env
  cases htpl : (analyze_file p sz).is_template <;>
    cases cr <;> cases an <;> cases tp <;> cases eh <;> cases mp <;>
    cases ge <;> cases qa <;> cases tl <;>
    simp [process_file, htpl, List.range']

theorem process_file_steps_strictly_increasing_witness :
    (analyze_file "report_2024.pdf" 1048576).is_template = true ∧
      (process_file "report_2024.pdf" 1048576 allOkStages).2
        = List.range' 1 (process_file "report_2024.pdf" 1048576 allOkStages).2.length :=
  ⟨by decide,
    (process_file_steps_strictly_increasing "report_2024.pdf" 1048576 allOkStages).2.2
      (by decide)⟩

/-- C8 counterexample: with identical caller-supplied inputs apart from the
file name, the TemplateResolved branch flips — a name containing 2024 is
routed through template extraction (ledger [1,2,3,4,5,6]) while another name
is routed to the loaded-template branch (ledger [1,3,4,5,6]); process_file
takes no caller-supplied flag, so the branch is inferred from the name. -/
theorem template_branch_filename_cex :
    (analyze_file "statements_2024.pdf" 1048576).is_template = true ∧
      (analyze_file "statements_2025.pdf" 1048576).is_template = false ∧
      process_file "statements_2024.pdf" 1048576 allOkStages
        = (RunStatus.success, [1, 2, 3, 4, 5, 6]) ∧
      process_file "statements_2025.pdf" 1048576 allOkStages
        = (RunStatus.success, [1, 3, 4, 5, 6]) := by
  refine ⟨by decide, by decide, by decide, by decide⟩

/-- C8 (amended): the TemplateResolved branch is selected inside the core by a
filename heuristic — is_template holds exactly when the lowercased basename
contains "2024" or "template" — and the template-extraction step ordinal 2 is
recorded only on that branch; there is no caller-supplied flag among
process_file's inputs. -/
theorem template_branch_from_filename (p : String) (sz : ℚ) (env : StageOutcomes) :
    (analyze_file p sz).is_template
        = (strContains (strToLower (baseName p)) "2024"
            || strContains (strToLower (baseName p)) "template") ∧
      (2 ∈ (process_file p sz env).2 → (analyze_file p sz).is_template = true) := by
  refine ⟨rfl, ?_⟩
  obtain ⟨cr, an, tp, eh, mp, ge, qa, tl⟩ := env
  cases htpl : (analyze_file p sz).is_template <;>
    cases cr <;> cases an <;> cases tp <;> cases eh <;> cases mp <;>
    cases ge <;> cases qa <;> cases tl <;>
    simp [process_file, htpl, List.range']

theorem template_branch_from_filename_witness :
    (analyze_file "a_2024.pdf" 1048576).is_template = true :=
  (template_branch_from_filename "a_2024.pdf" 1048576 allOkStages).2 (by decide)

/-- Embedding of GrokClient.semantic_account_mapping (grok_client.py lines
32-124), after the response text has been stripped of markdown fences: the
parse outcome of json.loads is an oracle input, none modelling a
json.JSONDecodeError. On a parsed object the code appends three bookkeeping
keys and returns it unvalidated; a parse failure, or a non-object parse (item
assignment on a non-dict raises TypeError), is re-raised as a stage error.
elapsed abstracts the wall-clock processing time. The account sampling to 50
entries affects only the prompt text; the processed-accounts count uses the
full lists. -/
def semantic_account_mapping (accounts_2024 accounts_2025 : List String)
    (parsed : Option Json) (elapsed : ℚ) : Except Unit Json :=
  match parsed with
  | none => .error ()
  | some (.obj fs) =>
      .ok (.obj (assocSet (assocSet (assocSet fs
        "processing_time_seconds" (.num elapsed))
        "model_used" (.str default_config.grok_model))
        "total_accounts_processed"
        (.num ((accounts_2024.length + accounts_2025.length : ℕ) : ℚ))))
  | some _ => .error ()

/-- Reads the "mappings" list of a mapping result. -/
def mappingsOf : Except Unit Json → Option Json
  | .ok (.obj fs) => assocGet fs "mappings"
  | _ => none

/-- Action tag of the first mapping entry of a mapping result. -/
def resultFirstAction (res : Except Unit Json) : Option String :=
  match mappingsOf res with
  | some (.arr (.obj m :: _)) =>
      match assocGet m "action" with
      | some (.str a) => some a
      | _ => none
  | _ => none

/-- Similarity score of the first mapping entry of a mapping result. -/
def resultFirstSimilarity (res : Except Unit Json) : Option ℚ :=
  match mappingsOf res with
  | some (.arr (.obj m :: _)) =>
      match assocGet m "similarity_score" with
      | some (.num q) => some q
      | _ => none
  | _ => none

/-- One backend mapping entry with similarity score 0.9 and the given action. -/
def mappingEntry (act : String) : Json :=
  .obj [("account_2025", .str "Revenue"), ("account_2024_match", .str "Income"),
        ("similarity_score", .num (9/10)), ("action", .str act)]

def respReview : Json := .obj [("mappings", .arr [mappingEntry "REVIEW_NEEDED"])]

def respAuto : Json := .obj [("mappings", .arr [mappingEntry "AUTO_MAP"])]

/-- C4 counterexample: the core does not compute the classification itself —
two backends replying with the same similarity score 0.9 but different action
tags are both accepted unvalidated, so the resulting action is not a pure
function of the similarity score and the configured thresholds, and differs
across plugged-in classification backends. -/
theorem semantic_mapping_backend_dependent_cex :
    resultFirstSimilarity (semantic_account_mapping [] [] (some respReview) 0)
        = resultFirstSimilarity (semantic_account_mapping [] [] (some respAuto) 0) ∧
      resultFirstAction (semantic_account_mapping [] [] (some respReview) 0)
        = some "REVIEW_NEEDED" ∧
      resultFirstAction (semantic_account_mapping [] [] (some respAuto) 0)
        = some "AUTO_MAP" := by
  refine ⟨rfl, rfl, rfl⟩

inductive MappingAction where
  | autoMap : MappingAction
  | reviewNeeded : MappingAction
  | newField : MappingAction
deriving DecidableEq

/-- Modelled from the spec: the Confidence Classifier of spec section 4.3 is
not implemented as executable code under src/ — the thresholds appear only in
the prompt text of GrokClient.semantic_account_mapping (grok_client.py lines
48-51), which instructs the backend to classify similarity above
auto_map_threshold as AUTO_MAP, between review_threshold and
auto_map_threshold as REVIEW_NEEDED, and below review_threshold as
NEW_ACCOUNT. This definition follows the spec's words, with its boundary
policy of a strict upper comparison and an inclusive lower one. -/
def spec_classify (auto_map_threshold review_threshold : ℚ) (s : ℚ) :
    MappingAction :=
  if auto_map_threshold < s then .autoMap
  else if review_threshold ≤ s then .reviewNeeded
  else .newField

/-- C4 (amended): the implementation does not compute the classification as a
function of the similarity score — semantic_account_mapping returns the
backend's mappings, action fields included, unvalidated, so the action is
whatever the plugged-in backend replied (see the counterexample). The
intended rule, stated in the prompt and the spec, is the pure total threshold
function spec_classify, which satisfies the claimed boundary properties
whenever review_threshold < auto_map_threshold. -/
theorem spec_classify_boundaries (a r : ℚ) (h : r < a) :
    (∀ fs a24 a25 t,
        mappingsOf (semantic_account_mapping a24 a25 (some (.obj fs)) t)
          = assocGet fs "mappings") ∧
      (∀ s : ℚ, a < s → spec_classify a r s = .autoMap) ∧
      (∀ s : ℚ, r ≤ s → s ≤ a → spec_classify a r s = .reviewNeeded) ∧
      (∀ s : ℚ, s < r → spec_classify a r s = .newField) := by
  refine ⟨?_, ?_, ?_, ?_⟩
  · intro fs a24 a25 t
    show assocGet (assocSet (assocSet (assocSet fs
        "processing_time_seconds" (.num t))
        "model_used" (.str default_config.grok_model))
        "total_accounts_processed"
        (.num ((a24.length + a25.length : ℕ) : ℚ))) "mappings"
      = assocGet fs "mappings"
    rw [assocGet_assocSet_ne _ _ _ _ (by decide),
      assocGet_assocSet_ne _ _ _ _ (by decide),
      assocGet_assocSet_ne _ _ _ _ (by decide)]
  · intro s hs
    unfold spec_classify
    rw [if_pos hs]
  · intro s h1 h2
    unfold spec_classify
    rw [if_neg (not_lt.mpr h2), if_pos h1]
  · intro s hs
    unfold spec_classify
    rw [if_neg (not_lt.mpr (le_of_lt (hs.trans h))), if_neg (not_le.mpr hs)]

theorem spec_classify_boundaries_witness :
    ((7 : ℚ)/10 < 17/20) ∧
      spec_classify (17/20) (7/10) (9/10) = MappingAction.autoMap ∧
      spec_classify (17/20) (7/10) (17/20) = MappingAction.reviewNeeded ∧
      spec_classify (17/20) (7/10) (7/10) = MappingAction.reviewNeeded ∧
      spec_classify (17/20) (7/10) (1/2) = MappingAction.newField :=
  let h := spec_classify_boundaries (17/20) (7/10) (by decide)
  ⟨by decide, h.2.1 _ (by decide), h.2.2.1 _ (by decide) (by decide),
    h.2.2.1 _ (by decide) (by decide), h.2.2.2 _ (by decide)⟩

/-- Modelled from the spec (section 6): the ExtractionResult shape a
well-formed backend extraction response must conform to — a JSON object whose
tables, headers and footnotes fields are arrays. Stated only to express what
shape validation would check; the implementation performs no such check. -/
def specExtractionResultShape (j : Json) : Bool :=
  match j with
  | .obj fs =>
      (match assocGet fs "tables" with
        | some (.arr _) => true
        | _ => false) &&
      (match assocGet fs "headers" with
        | some (.arr _) => true
        | _ => false) &&
      (match assocGet fs "footnotes" with
        | some (.arr _) => true
        | _ => false)
  | _ => false

/-- Parsed JSON object carrying none of the ExtractionResult fields. -/
def nonConformingResponse : Json := .obj [("foo", .num 1)]

/-- C5 counterexample: a backend response that parses as JSON but fails the
ExtractionResult shape is not treated as malformed: _extract_from_image
returns it as a primary success tagged gemini_vision instead of taking the
fallback path, whose result would be tagged failed here. -/
theorem extract_no_shape_validation_cex :
    specExtractionResultShape nonConformingResponse = false ∧
      jsonMethod (extract_from_image
        { primary := .ok (some nonConformingResponse), ocr := .error "e" } 1)
        = "gemini_vision" ∧
      jsonMethod (fallback_ocr_extraction (.error "e") 1) = "failed" := by
  refine ⟨rfl, rfl, rfl⟩

/-- Discriminates the only responses the extraction path accepts as primary
successes: a parse that yielded a JSON object. -/
def primaryUsable : Except String (Option Json) → Bool
  | .ok (some (.obj _)) => true
  | _ => false

/-- C5 (amended): the core validates only JSON-parseability, not structural
shape. During extraction every response that is not a parsed JSON object — a
transport error, a parse failure, or a non-object parse — triggers the OCR
fallback, and during mapping a parse failure raises a stage error which the
orchestrator converts into a failed outcome rather than a crash; but a
response parsing as a JSON object of the wrong shape is used as-is (see the
counterexample). -/
theorem parse_failure_falls_back (env : PageEnv) (n : Nat)
    (h : primaryUsable env.primary = false) :
    extract_from_image env n = fallback_ocr_extraction env.ocr n ∧
      (∀ a24 a25 t, semantic_account_mapping a24 a25 none t = .error ()) := by
  constructor
  · unfold extract_from_image
    cases henv : env.primary with
    | error e => rfl
    | ok o =>
      cases o with
      | none => rfl
      | some j =>
        cases j with
        | obj fs =>
            rw [henv] at h
            exact absurd h (by simp [primaryUsable])
        | null => rfl
        | bool b => rfl
        | num q => rfl
        | str s => rfl
        | arr xs => rfl
  · intro a24 a25 t
    rfl

theorem parse_failure_falls_back_witness :
    primaryUsable (Except.ok none) = false ∧
      extract_from_image { primary := .ok none, ocr := .ok "x" } 7
        = fallback_ocr_extraction (.ok "x") 7 :=
  ⟨rfl, (parse_failure_falls_back { primary := .ok none, ocr := .ok "x" } 7 rfl).1⟩
